import Mathlib

/-!
Verification development for the `maya_camera_matching` repository.

The numeric domain of the source (Python floats) is embedded as `ℚ`;
4×4 matrices are embedded as row-major lists of 16 scalars, exactly the
representation `math_utils.py` uses.  External Maya API calls
(`maya.cmds`, `maya.api.OpenMaya`) are modelled by an explicit `Scene`
record and by mathematically faithful matrix arithmetic.
-/

set_option autoImplicit false

namespace CameraMatcher

/-- Entry `i` of a row-major 4×4 matrix stored as a flat list
(the Python code indexes `m[i]` on a list of 16 floats). -/
def mget (m : List ℚ) (i : Nat) : ℚ := m.getD i 0

/-- `multiply_matrices_4x4` from `utils/math_utils.py`:
row-major product of two 4×4 matrices given as flat lists of 16 scalars. -/
def multiply_matrices_4x4 (a b : List ℚ) : List ℚ :=
  (List.range 16).map (fun k =>
    let i := k / 4
    let j := k % 4
    mget a (i * 4 + 0) * mget b (0 * 4 + j) +
    mget a (i * 4 + 1) * mget b (1 * 4 + j) +
    mget a (i * 4 + 2) * mget b (2 * 4 + j) +
    mget a (i * 4 + 3) * mget b (3 * 4 + j))

/-- Modelled from the spec: the external Maya API call `MMatrix.inverse`
("transform the world point into camera space using the inverse of the
camera's 4×4 world transform").  Standard adjugate/cofactor inverse of a
row-major 4×4 matrix; a singular matrix yields the zero matrix (division
by zero in `ℚ`), matching the external library's garbage-in behaviour. -/
def mat4_inverse (m : List ℚ) : List ℚ :=
  let m0 := mget m 0; let m1 := mget m 1; let m2 := mget m 2; let m3 := mget m 3
  let m4 := mget m 4; let m5 := mget m 5; let m6 := mget m 6; let m7 := mget m 7
  let m8 := mget m 8; let m9 := mget m 9; let m10 := mget m 10; let m11 := mget m 11
  let m12 := mget m 12; let m13 := mget m 13; let m14 := mget m 14; let m15 := mget m 15
  let i0 := m5*m10*m15 - m5*m11*m14 - m9*m6*m15 + m9*m7*m14 + m13*m6*m11 - m13*m7*m10
  let i4 := -m4*m10*m15 + m4*m11*m14 + m8*m6*m15 - m8*m7*m14 - m12*m6*m11 + m12*m7*m10
  let i8 := m4*m9*m15 - m4*m11*m13 - m8*m5*m15 + m8*m7*m13 + m12*m5*m11 - m12*m7*m9
  let i12 := -m4*m9*m14 + m4*m10*m13 + m8*m5*m14 - m8*m6*m13 - m12*m5*m10 + m12*m6*m9
  let i1 := -m1*m10*m15 + m1*m11*m14 + m9*m2*m15 - m9*m3*m14 - m13*m2*m11 + m13*m3*m10
  let i5 := m0*m10*m15 - m0*m11*m14 - m8*m2*m15 + m8*m3*m14 + m12*m2*m11 - m12*m3*m10
  let i9 := -m0*m9*m15 + m0*m11*m13 + m8*m1*m15 - m8*m3*m13 - m12*m1*m11 + m12*m3*m9
  let i13 := m0*m9*m14 - m0*m10*m13 - m8*m1*m14 + m8*m2*m13 + m12*m1*m10 - m12*m2*m9
  let i2 := m1*m6*m15 - m1*m7*m14 - m5*m2*m15 + m5*m3*m14 + m13*m2*m7 - m13*m3*m6
  let i6 := -m0*m6*m15 + m0*m7*m14 + m4*m2*m15 - m4*m3*m14 - m12*m2*m7 + m12*m3*m6
  let i10 := m0*m5*m15 - m0*m7*m13 - m4*m1*m15 + m4*m3*m13 + m12*m1*m7 - m12*m3*m5
  let i14 := -m0*m5*m14 + m0*m6*m13 + m4*m1*m14 - m4*m2*m13 - m12*m1*m6 + m12*m2*m5
  let i3 := -m1*m6*m11 + m1*m7*m10 + m5*m2*m11 - m5*m3*m10 - m9*m2*m7 + m9*m3*m6
  let i7 := m0*m6*m11 - m0*m7*m10 - m4*m2*m11 + m4*m3*m10 + m8*m2*m7 - m8*m3*m6
  let i11 := -m0*m5*m11 + m0*m7*m9 + m4*m1*m11 - m4*m3*m9 - m8*m1*m7 + m8*m3*m5
  let i15 := m0*m5*m10 - m0*m6*m9 - m4*m1*m10 + m4*m2*m9 + m8*m1*m6 - m8*m2*m5
  let det := m0*i0 + m1*i4 + m2*i8 + m3*i12
  [i0/det, i1/det, i2/det, i3/det,
   i4/det, i5/det, i6/det, i7/det,
   i8/det, i9/det, i10/det, i11/det,
   i12/det, i13/det, i14/det, i15/det]

/-- Homogeneous point, as `maya.api.OpenMaya.MPoint(x, y, z, w)`. -/
structure MPoint where
  x : ℚ
  y : ℚ
  z : ℚ
  w : ℚ
deriving Repr, DecidableEq

/-- Modelled from the spec: the external Maya API row-vector product
`MPoint * MMatrix` (component `j` of the result is `Σ_i p_i · m[i][j]`). -/
def mpoint_mul_mat (p : MPoint) (m : List ℚ) : MPoint :=
  { x := p.x * mget m 0 + p.y * mget m 4 + p.z * mget m 8 + p.w * mget m 12
    y := p.x * mget m 1 + p.y * mget m 5 + p.z * mget m 9 + p.w * mget m 13
    z := p.x * mget m 2 + p.y * mget m 6 + p.z * mget m 10 + p.w * mget m 14
    w := p.x * mget m 3 + p.y * mget m 7 + p.z * mget m 11 + p.w * mget m 15 }

/-- The degeneracy threshold `1e-6` used by both projection paths. -/
def zEps : ℚ := 1 / 1000000

/-- `project_point` from `utils/math_utils.py`: project a 3D world point
through a camera (4×4 world transform, intrinsics in mm) to normalized
device coordinates.  When the camera-space `|z| < 1e-6` the source
returns `(0.0, 0.0)` (comment: "Avoid division by zero"). -/
def project_point (point_3d : ℚ × ℚ × ℚ) (camera_matrix : List ℚ)
    (focal_length film_width film_height film_offset_x film_offset_y : ℚ) :
    ℚ × ℚ :=
  let point : MPoint := ⟨point_3d.1, point_3d.2.1, point_3d.2.2, 1⟩
  let inv_matrix := mat4_inverse camera_matrix
  let camera_point := mpoint_mul_mat point inv_matrix
  if |camera_point.z| < zEps then (0, 0)
  else
    let x_proj := -camera_point.x / camera_point.z
    let y_proj := camera_point.y / camera_point.z
    let x_film := x_proj * focal_length + film_offset_x
    let y_film := y_proj * focal_length + film_offset_y
    (x_film / (film_width * (1/2)), y_film / (film_height * (1/2)))

/-- The NDC→pixel conversion used at `locator_pair.py` lines 194–195 and
`optimization.py` lines 84–85:
`pixel_x = (x_ndc + 1) * 0.5 * width`, `pixel_y = (1 - y_ndc) * 0.5 * height`. -/
def ndc_to_pixel (ndc : ℚ × ℚ) (image_width image_height : ℚ) : ℚ × ℚ :=
  ((ndc.1 + 1) * (1/2) * image_width, (1 - ndc.2) * (1/2) * image_height)

/-- The row-major 4×4 identity matrix (camera at origin, no rotation). -/
def identity4 : List ℚ := [1,0,0,0, 0,1,0,0, 0,0,1,0, 0,0,0,1]

example : mat4_inverse identity4 = identity4 := by
  norm_num [mat4_inverse, identity4, mget, List.getD]

/-- C9: with an identity camera world transform, focal length 35mm,
film aperture 36×24mm, zero film offsets and a 1920×1080 image, the 3D
point (0,0,-10) projects to exactly the image-center pixel (960, 540). -/
theorem project_point_image_center :
    ndc_to_pixel (project_point (0, 0, -10) identity4 35 36 24 0 0) 1920 1080
      = (960, 540) := by
  norm_num [ndc_to_pixel, project_point, mat4_inverse, mpoint_mul_mat,
    identity4, mget, List.getD, zEps]

/-! ## The external Maya scene

The Maya API (`maya.cmds`, `maya.api.OpenMaya`) is the spec's "external
collaborator".  A `Scene` records the answers the collaborator would give
to the queries the source issues: object existence, a locator's world
position (`none` models the query raising), a camera's world matrix, the
camera-shape resolution, and the camera shape's film attributes (apertures
and offsets in inches, focal length in mm, as Maya stores them). -/
structure Scene where
  objExists : String → Bool
  locatorPos : String → Option (ℚ × ℚ × ℚ)
  camMatrix : String → List ℚ
  camShape : String → Option String
  focalLength : String → ℚ
  horizontalFilmAperture : String → ℚ
  verticalFilmAperture : String → ℚ
  horizontalFilmOffset : String → ℚ
  verticalFilmOffset : String → ℚ
  camTranslation : String → ℚ × ℚ × ℚ := fun _ => (0, 0, 0)
  camRotation : String → ℚ × ℚ × ℚ := fun _ => (0, 0, 0)

/-- The inches→millimetres factor `25.4` the source multiplies film
attributes by. -/
def inchToMM : ℚ := 254 / 10

/-- `LocatorPair` state (`core/locator_pair.py`): the locator's name, the
observed pixel coordinates, the optional id, and the private `_is_valid`
latch flag (initialised `true` by `__init__`). -/
structure LocatorPair where
  locator_name : String
  pixel_coords : ℚ × ℚ
  pair_id : Option Int
  is_valid_flag : Bool := true
deriving Repr, DecidableEq

/-- `LocatorPair.world_position`: re-queries the scene; on a failed read
(object gone, or the position query raising) it sets `_is_valid = False`
and raises (`Except.error`). -/
def world_position (s : Scene) (lp : LocatorPair) :
    Except String (ℚ × ℚ × ℚ) × LocatorPair :=
  if s.objExists lp.locator_name = false then
    (.error "Locator does not exist in scene", { lp with is_valid_flag := false })
  else
    match s.locatorPos lp.locator_name with
    | some p => (.ok p, lp)
    | none => (.error "Failed to get world position", { lp with is_valid_flag := false })

/-- `LocatorPair.is_valid`: `False` once the latch flag is down, otherwise
a live existence re-query. -/
def is_valid (s : Scene) (lp : LocatorPair) : Bool :=
  if lp.is_valid_flag = false then false
  else s.objExists lp.locator_name

/-- `LocatorPair.update_pixel_coords`. -/
def update_pixel_coords (lp : LocatorPair) (new_coords : ℚ × ℚ) : LocatorPair :=
  { lp with pixel_coords := new_coords }

/-- `LocatorPair.update_locator_position`: checks existence first (setting
the latch on failure); the write itself goes to the external scene. -/
def update_locator_position (s : Scene) (lp : LocatorPair) :
    Except String Unit × LocatorPair :=
  if s.objExists lp.locator_name = false then
    (.error "Locator does not exist in scene", { lp with is_valid_flag := false })
  else
    (.ok (), lp)

/-- `LocatorPair.delete_locator`: always ends with `_is_valid = False`. -/
def delete_locator (lp : LocatorPair) : LocatorPair :=
  { lp with is_valid_flag := false }

/-- The camera-space position of a world point: the homogeneous point
multiplied by the inverse of the camera's world matrix (lines 151–153 of
`locator_pair.py`). -/
def camera_space_point (s : Scene) (camera_name : String) (pos : ℚ × ℚ × ℚ) : MPoint :=
  mpoint_mul_mat ⟨pos.1, pos.2.1, pos.2.2, 1⟩ (mat4_inverse (s.camMatrix camera_name))

/-- `LocatorPair.get_projected_coords`: camera existence and validity
checks, live world-position read, camera attribute reads (inch→mm), then
the inline projection of lines 156–171; the degenerate-Z branch raises. -/
def get_projected_coords (s : Scene) (camera_name : String) (lp : LocatorPair) :
    Except String (ℚ × ℚ) × LocatorPair :=
  if s.objExists camera_name = false then
    (.error "Camera does not exist in scene", lp)
  else if is_valid s lp = false then
    (.error "Locator is not valid", lp)
  else
    match world_position s lp with
    | (.error e, lp') => (.error ("Failed to project locator: " ++ e), lp')
    | (.ok pos, lp') =>
      match s.camShape camera_name with
      | none => (.error "No camera shape found", lp')
      | some shape =>
        let focal_length := s.focalLength shape
        let h_aperture := s.horizontalFilmAperture shape * inchToMM
        let v_aperture := s.verticalFilmAperture shape * inchToMM
        let h_offset := s.horizontalFilmOffset shape * inchToMM
        let v_offset := s.verticalFilmOffset shape * inchToMM
        let csp := camera_space_point s camera_name pos
        if |csp.z| < zEps then
          (.error "Point is at camera position (division by zero)", lp')
        else
          let x_proj := -csp.x / csp.z
          let y_proj := csp.y / csp.z
          let x_film := x_proj * focal_length + h_offset
          let y_film := y_proj * focal_length + v_offset
          (.ok (x_film / (h_aperture * (1/2)), y_film / (v_aperture * (1/2))), lp')

/-- The value returned by `LocatorPair.get_reprojection_error`:
`infinite` models `float('inf')`; `finite dx dy` models the float
`(dx*dx + dy*dy) ** 0.5`, carrying the two pixel residuals exactly. -/
inductive ReprojResult where
  | infinite
  | finite (dx dy : ℚ)
deriving Repr, DecidableEq

/-- `LocatorPair.get_reprojection_error`: projects (catching every
failure as `infinite`), converts NDC to pixels, and returns the Euclidean
distance to the stored observation. -/
def get_reprojection_error (s : Scene) (camera_name : String) (lp : LocatorPair)
    (image_width image_height : ℚ) : ReprojResult × LocatorPair :=
  match get_projected_coords s camera_name lp with
  | (.error _, lp') => (.infinite, lp')
  | (.ok proj_ndc, lp') =>
    let proj_pixel_x := (proj_ndc.1 + 1) * (1/2) * image_width
    let proj_pixel_y := (1 - proj_ndc.2) * (1/2) * image_height
    let dx := proj_pixel_x - lp'.pixel_coords.1
    let dy := proj_pixel_y - lp'.pixel_coords.2
    (.finite dx dy, lp')

/-! ## The validity latch as a trace property -/

/-- One externally-triggered operation on a `LocatorPair` instance: every
method of the class that can touch the `_is_valid` flag, each carrying
the scene state the Maya collaborator presents at that moment. -/
inductive LocatorOp where
  | readWorldPosition (s : Scene)
  | readProjected (s : Scene) (camera_name : String)
  | readReprojError (s : Scene) (camera_name : String) (w h : ℚ)
  | setPixelCoords (c : ℚ × ℚ)
  | setLocatorPosition (s : Scene)
  | deleteLocator

/-- The state reached after one operation (return values dropped). -/
def stepOp (lp : LocatorPair) : LocatorOp → LocatorPair
  | .readWorldPosition s => (world_position s lp).2
  | .readProjected s cam => (get_projected_coords s cam lp).2
  | .readReprojError s cam w h => (get_reprojection_error s cam lp w h).2
  | .setPixelCoords c => update_pixel_coords lp c
  | .setLocatorPosition s => (update_locator_position s lp).2
  | .deleteLocator => delete_locator lp

/-- The state reached after a sequence of operations. -/
def runOps (lp : LocatorPair) (ops : List LocatorOp) : LocatorPair :=
  ops.foldl stepOp lp

/-- A failed `world_position` read always lowers the latch flag. -/
theorem world_position_error_flag (s : Scene) (lp : LocatorPair) (e : String)
    (h : (world_position s lp).1 = .error e) :
    (world_position s lp).2.is_valid_flag = false := by
  unfold world_position at h ⊢
  by_cases hex : s.objExists lp.locator_name = false
  · simp [hex]
  · simp only [hex, if_false] at h ⊢
    rcases hpos : s.locatorPos lp.locator_name with _ | p <;>
      simp [hpos] at h ⊢

/-- A successful `world_position` read leaves the pair untouched. -/
theorem world_position_ok (s : Scene) (lp : LocatorPair) (pos : ℚ × ℚ × ℚ)
    (h : (world_position s lp).1 = .ok pos) :
    world_position s lp = (.ok pos, lp) := by
  unfold world_position at h ⊢
  by_cases hex : s.objExists lp.locator_name = false
  · simp [hex] at h
  · simp only [hex, if_false] at h ⊢
    rcases hpos : s.locatorPos lp.locator_name with _ | p <;>
      simp [hpos] at h ⊢
    exact h

/-- `world_position` never raises the latch flag. -/
theorem world_position_flag_mono (s : Scene) (lp : LocatorPair)
    (h : lp.is_valid_flag = false) :
    (world_position s lp).2.is_valid_flag = false := by
  unfold world_position
  split
  · simp
  · rcases hpos : s.locatorPos lp.locator_name with _ | p <;> simp [hpos, h]

/-- `get_projected_coords` never raises the latch flag. -/
theorem get_projected_coords_flag_mono (s : Scene) (camera_name : String)
    (lp : LocatorPair) (h : lp.is_valid_flag = false) :
    (get_projected_coords s camera_name lp).2.is_valid_flag = false := by
  unfold get_projected_coords
  split
  · exact h
  · split
    · exact h
    · rcases hwp : world_position s lp with ⟨res, lp'⟩
      have hlp' : lp'.is_valid_flag = false := by
        have := world_position_flag_mono s lp h
        rw [hwp] at this
        exact this
      rcases res with e | pos
      · simpa using hlp'
      · rcases hsh : s.camShape camera_name with _ | shape
        · simpa [hsh] using hlp'
        · by_cases hz : |(camera_space_point s camera_name pos).z| < zEps <;>
            simp [hsh, hz, hlp']

/-- `get_projected_coords` never changes the stored pixel observation. -/
theorem get_projected_coords_pixel (s : Scene) (camera_name : String)
    (lp : LocatorPair) :
    (get_projected_coords s camera_name lp).2.pixel_coords = lp.pixel_coords := by
  unfold get_projected_coords
  split
  · rfl
  · split
    · rfl
    · rcases hwp : world_position s lp with ⟨res, lp'⟩
      have hlp' : lp'.pixel_coords = lp.pixel_coords := by
        have : (world_position s lp).2.pixel_coords = lp.pixel_coords := by
          unfold world_position
          split
          · rfl
          · rcases hpos : s.locatorPos lp.locator_name with _ | p <;> simp [hpos]
        rw [hwp] at this
        exact this
      rcases res with e | pos
      · simpa using hlp'
      · rcases hsh : s.camShape camera_name with _ | shape
        · simpa [hsh] using hlp'
        · by_cases hz : |(camera_space_point s camera_name pos).z| < zEps <;>
            simp [hsh, hz, hlp']

/-- No operation of the class ever raises the latch flag. -/
theorem stepOp_flag_mono (lp : LocatorPair) (op : LocatorOp)
    (h : lp.is_valid_flag = false) : (stepOp lp op).is_valid_flag = false := by
  rcases op with s | ⟨s, cam⟩ | ⟨s, cam, w, hh⟩ | c | s | _
  · exact world_position_flag_mono s lp h
  · exact get_projected_coords_flag_mono s cam lp h
  · show (get_reprojection_error s cam lp w hh).2.is_valid_flag = false
    unfold get_reprojection_error
    rcases hg : get_projected_coords s cam lp with ⟨res, lp'⟩
    have hlp' : lp'.is_valid_flag = false := by
      have := get_projected_coords_flag_mono s cam lp h
      rw [hg] at this
      exact this
    rcases res with e | ndc <;> simpa using hlp'
  · exact h
  · show (update_locator_position s lp).2.is_valid_flag = false
    unfold update_locator_position
    split <;> simp [h]
  · rfl

/-- A lowered latch flag survives any sequence of operations. -/
theorem runOps_flag_mono (ops : List LocatorOp) (lp : LocatorPair)
    (h : lp.is_valid_flag = false) : (runOps lp ops).is_valid_flag = false := by
  induction ops generalizing lp with
  | nil => exact h
  | cons op rest ih =>
    exact ih (stepOp lp op) (stepOp_flag_mono lp op h)

/-- C1: validity is a one-way latch.  Once a `world_position` read fails,
the pair's latch flag is down, and after any further sequence of
operations on that instance, `is_valid` is `false` against every scene —
in particular against scenes in which an object with the same name exists
again. -/
theorem is_valid_latch (s : Scene) (lp : LocatorPair) (e : String)
    (h : (world_position s lp).1 = .error e) :
    (world_position s lp).2.is_valid_flag = false ∧
    ∀ (ops : List LocatorOp) (s' : Scene),
      is_valid s' (runOps (world_position s lp).2 ops) = false := by
  have hflag := world_position_error_flag s lp e h
  refine ⟨hflag, fun ops s' => ?_⟩
  have := runOps_flag_mono ops _ hflag
  unfold is_valid
  simp [this]

/-- A scene in which no object exists. -/
def sceneGone : Scene :=
  { objExists := fun _ => false
    locatorPos := fun _ => none
    camMatrix := fun _ => identity4
    camShape := fun _ => none
    focalLength := fun _ => 35
    horizontalFilmAperture := fun _ => 1
    verticalFilmAperture := fun _ => 1
    horizontalFilmOffset := fun _ => 0
    verticalFilmOffset := fun _ => 0 }

/-- A scene in which every object exists again (same identities). -/
def sceneBack : Scene :=
  { sceneGone with
    objExists := fun _ => true
    locatorPos := fun _ => some (0, 0, 0)
    camShape := fun _ => some "camShape" }

/-- A pair whose anchor is read while the anchor is gone. -/
def lpLatch : LocatorPair :=
  { locator_name := "locator1", pixel_coords := (0, 0), pair_id := some 1 }

/-- Witness for C1: the anchor vanishes, the read fails, the anchor is
re-added under the same name, and `is_valid` is still `false`. -/
theorem is_valid_latch_witness :
    (world_position sceneGone lpLatch).1 = .error "Locator does not exist in scene" ∧
    is_valid sceneBack
      (runOps (world_position sceneGone lpLatch).2
        [LocatorOp.readWorldPosition sceneBack]) = false := by
  have h : (world_position sceneGone lpLatch).1 =
      .error "Locator does not exist in scene" := by
    simp [world_position, sceneGone, lpLatch]
  exact ⟨h, (is_valid_latch sceneGone lpLatch _ h).2
    [LocatorOp.readWorldPosition sceneBack] sceneBack⟩

/-! ## Degenerate projection (C3) -/

/-- C3 (amended): when the camera-space Z magnitude is below `1e-6`,
`LocatorPair.get_projected_coords` fails with the degenerate-projection
error and returns no coordinate result; `project_point` in
`utils/math_utils.py`, however, does not fail — it returns the sentinel
`(0.0, 0.0)`. -/
theorem degenerate_projection_behaviour (s : Scene) (camera_name : String)
    (lp : LocatorPair) (pos : ℚ × ℚ × ℚ) (shape : String)
    (hcam : s.objExists camera_name = true)
    (hval : is_valid s lp = true)
    (hwp : (world_position s lp).1 = .ok pos)
    (hsh : s.camShape camera_name = some shape)
    (hz : |(camera_space_point s camera_name pos).z| < zEps) :
    (get_projected_coords s camera_name lp).1 =
      .error "Point is at camera position (division by zero)" ∧
    ∀ (p : ℚ × ℚ × ℚ) (m : List ℚ) (f fw fh ox oy : ℚ),
      |(mpoint_mul_mat ⟨p.1, p.2.1, p.2.2, 1⟩ (mat4_inverse m)).z| < zEps →
      project_point p m f fw fh ox oy = (0, 0) := by
  constructor
  · unfold get_projected_coords
    rw [world_position_ok s lp pos hwp]
    simp [hcam, hval, hsh, hz]
  · intro p m f fw fh ox oy hz'
    unfold project_point
    simp [hz']

/-- Counterexample for C3 as stated: the world point `(0,0,0)` with an
identity camera transform has camera-space Z exactly `0` (magnitude
below `1e-6`), yet `project_point` returns the normal coordinate result
`(0.0, 0.0)` instead of failing. -/
theorem project_point_degenerate_no_failure :
    |(mpoint_mul_mat ⟨0, 0, 0, 1⟩ (mat4_inverse identity4)).z| < zEps ∧
    project_point (0, 0, 0) identity4 35 36 24 0 0 = (0, 0) := by
  constructor <;>
    norm_num [project_point, mpoint_mul_mat, mat4_inverse, identity4, mget,
      List.getD, zEps]

/-- Witness for C3 (amended): a scene whose single locator sits exactly at
the camera position; `get_projected_coords` fails with the degenerate
error while `project_point` at the same configuration returns `(0, 0)`. -/
theorem degenerate_projection_behaviour_witness :
    (get_projected_coords sceneBack "cam" lpLatch).1 =
      .error "Point is at camera position (division by zero)" ∧
    project_point (0, 0, 0) identity4 35 36 24 0 0 = (0, 0) := by
  have h := degenerate_projection_behaviour sceneBack "cam" lpLatch (0, 0, 0)
    "camShape" rfl rfl
    (by simp [world_position, sceneBack, sceneGone, lpLatch])
    (by simp [sceneBack, sceneGone])
    (by norm_num [camera_space_point, mpoint_mul_mat, mat4_inverse, sceneBack,
      sceneGone, identity4, mget, List.getD, zEps])
  exact ⟨h.1, h.2 (0, 0, 0) identity4 35 36 24 0 0 (by
    norm_num [mpoint_mul_mat, mat4_inverse, identity4, mget, List.getD, zEps])⟩

/-! ## The reprojection-error robustness contract (C6) -/

/-- C6: for every scene, camera and image size,
`LocatorPair.get_reprojection_error` returns the infinite sentinel (and,
being total, never raises) whenever the pair is invalid or the projection
fails — in particular in the degenerate case — and on a successful
projection it returns exactly the pixel-space Euclidean distance between
the projected pixel and the stored observation. -/
theorem get_reprojection_error_contract (s : Scene) (camera_name : String)
    (lp : LocatorPair) (w h : ℚ) :
    (is_valid s lp = false →
      (get_reprojection_error s camera_name lp w h).1 = .infinite) ∧
    (∀ e lp', get_projected_coords s camera_name lp = (.error e, lp') →
      (get_reprojection_error s camera_name lp w h).1 = .infinite) ∧
    (∀ ndc lp', get_projected_coords s camera_name lp = (.ok ndc, lp') →
      ∃ dx dy,
        (get_reprojection_error s camera_name lp w h).1 = .finite dx dy ∧
        dx = (ndc_to_pixel ndc w h).1 - lp.pixel_coords.1 ∧
        dy = (ndc_to_pixel ndc w h).2 - lp.pixel_coords.2 ∧
        Real.sqrt ((dx : ℝ) ^ 2 + (dy : ℝ) ^ 2) =
          @dist (EuclideanSpace ℝ (Fin 2)) (PiLp.instDist 2 fun _ => ℝ)
            ![((ndc_to_pixel ndc w h).1 : ℝ), ((ndc_to_pixel ndc w h).2 : ℝ)]
            ![(lp.pixel_coords.1 : ℝ), (lp.pixel_coords.2 : ℝ)]) := by
  refine ⟨?_, ?_, ?_⟩
  · intro hinv
    by_cases hcam : s.objExists camera_name = false <;>
      simp [get_reprojection_error, get_projected_coords, hcam, hinv]
  · intro e lp' hg
    simp [get_reprojection_error, hg]
  · intro ndc lp' hg
    have hpix : lp'.pixel_coords = lp.pixel_coords := by
      have := get_projected_coords_pixel s camera_name lp
      rw [hg] at this
      exact this
    refine ⟨(ndc.1 + 1) * (1/2) * w - lp.pixel_coords.1,
      (1 - ndc.2) * (1/2) * h - lp.pixel_coords.2, ?_, by simp [ndc_to_pixel],
      by simp [ndc_to_pixel], ?_⟩
    · simp [get_reprojection_error, hg, hpix]
    · have hd := EuclideanSpace.dist_eq
        (![((ndc_to_pixel ndc w h).1 : ℝ), ((ndc_to_pixel ndc w h).2 : ℝ)] :
          EuclideanSpace ℝ (Fin 2))
        ![(lp.pixel_coords.1 : ℝ), (lp.pixel_coords.2 : ℝ)]
      refine Eq.trans ?_ hd.symm
      rw [Fin.sum_univ_two]
      simp only [Matrix.cons_val_zero, Matrix.cons_val_one, Matrix.head_cons,
        Real.dist_eq, sq_abs, ndc_to_pixel]
      congr 1
      push_cast
      ring

/-- A valid pair observing the image-center pixel. -/
def lpCenter : LocatorPair :=
  { locator_name := "locator1", pixel_coords := (960, 540), pair_id := some 1 }

/-- A scene whose single locator sits at `(0,0,-10)` in front of an
identity camera. -/
def sceneFront : Scene :=
  { sceneBack with locatorPos := fun _ => some (0, 0, -10) }

/-- Witness for C6: in `sceneFront` the projection succeeds at the image
center, the residuals are `(0, 0)`, and the Euclidean-distance reading of
the result is `0`; and an invalid pair yields the infinite sentinel. -/
theorem get_reprojection_error_contract_witness :
    ((get_reprojection_error sceneFront "cam" (delete_locator lpCenter) 1920 1080).1
        = .infinite) ∧
    ∃ dx dy,
      (get_reprojection_error sceneFront "cam" lpCenter 1920 1080).1 = .finite dx dy ∧
      dx = (ndc_to_pixel (0, 0) 1920 1080).1 - lpCenter.pixel_coords.1 ∧
      dy = (ndc_to_pixel (0, 0) 1920 1080).2 - lpCenter.pixel_coords.2 ∧
      Real.sqrt ((dx : ℝ) ^ 2 + (dy : ℝ) ^ 2) =
        @dist (EuclideanSpace ℝ (Fin 2)) (PiLp.instDist 2 fun _ => ℝ)
          ![((ndc_to_pixel (0, 0) 1920 1080).1 : ℝ),
            ((ndc_to_pixel (0, 0) 1920 1080).2 : ℝ)]
          ![(lpCenter.pixel_coords.1 : ℝ), (lpCenter.pixel_coords.2 : ℝ)] := by
  constructor
  · exact (get_reprojection_error_contract sceneFront "cam"
      (delete_locator lpCenter) 1920 1080).1 (by simp [is_valid, delete_locator, lpCenter])
  · refine (get_reprojection_error_contract sceneFront "cam" lpCenter 1920 1080).2.2
      (0, 0) lpCenter ?_
    have : (0 : ℚ) / (sceneFront.horizontalFilmAperture "camShape" * inchToMM * (1/2)) = 0 := by
      norm_num [sceneFront, sceneBack, sceneGone, inchToMM]
    norm_num [get_projected_coords, world_position, is_valid, camera_space_point,
      mpoint_mul_mat, mat4_inverse, sceneFront, sceneBack, sceneGone, lpCenter,
      identity4, mget, List.getD, zEps, inchToMM]

/-! ## CameraParameters (`core/camera_parameters.py`)

Parameter names are the closed enumeration the dictionary keys of the
source range over; the canonical order is the list literal repeated at
lines 313–317, 332–336 and 353–357 of the source. -/

inductive ParamName where
  | translate_x | translate_y | translate_z
  | rotate_x | rotate_y | rotate_z
  | focal_length | film_offset_x | film_offset_y
deriving DecidableEq, Repr

/-- The fixed canonical parameter order. -/
def param_names : List ParamName :=
  [.translate_x, .translate_y, .translate_z,
   .rotate_x, .rotate_y, .rotate_z,
   .focal_length, .film_offset_x, .film_offset_y]

/-- `ParameterConstraints` dataclass. -/
structure ParameterConstraints where
  is_locked : Bool := false
  min_value : Option ℚ := none
  max_value : Option ℚ := none
deriving Repr, DecidableEq

/-- `ParameterConstraints.clamp_value`. -/
def clamp_value (c : ParameterConstraints) (value : ℚ) : ℚ :=
  let v1 := match c.min_value with
    | some m => max value m
    | none => value
  match c.max_value with
  | some m => min v1 m
  | none => v1

/-- `CameraParameters` state: the per-axis extrinsics, the intrinsics,
and one `ParameterConstraints` per canonical name (the `__init__`
dictionary populates all nine keys). -/
structure CameraParameters where
  camera_name : String
  camera_shape : String
  translation : ℚ × ℚ × ℚ
  rotation : ℚ × ℚ × ℚ
  focal_length : ℚ
  film_offset_x : ℚ
  film_offset_y : ℚ
  film_aperture_h : ℚ
  film_aperture_v : ℚ
  constraints : ParamName → ParameterConstraints

/-- The constraint table `__init__` builds (bounds on focal length and
film offsets, everything unlocked). -/
def defaultConstraints : ParamName → ParameterConstraints
  | .focal_length => { min_value := some 1, max_value := some 1000 }
  | .film_offset_x => { min_value := some (-50), max_value := some 50 }
  | .film_offset_y => { min_value := some (-50), max_value := some 50 }
  | _ => {}

/-- `CameraParameters.get_parameter_value`. -/
def get_parameter_value (cp : CameraParameters) : ParamName → ℚ
  | .translate_x => cp.translation.1
  | .translate_y => cp.translation.2.1
  | .translate_z => cp.translation.2.2
  | .rotate_x => cp.rotation.1
  | .rotate_y => cp.rotation.2.1
  | .rotate_z => cp.rotation.2.2
  | .focal_length => cp.focal_length
  | .film_offset_x => cp.film_offset_x
  | .film_offset_y => cp.film_offset_y

/-- `CameraParameters.set_parameter_value`: clamp through the
constraint for the name (every canonical name has one), then store. -/
def set_parameter_value (cp : CameraParameters) (param_name : ParamName)
    (value : ℚ) : CameraParameters :=
  let v := clamp_value (cp.constraints param_name) value
  match param_name with
  | .translate_x => { cp with translation := (v, cp.translation.2.1, cp.translation.2.2) }
  | .translate_y => { cp with translation := (cp.translation.1, v, cp.translation.2.2) }
  | .translate_z => { cp with translation := (cp.translation.1, cp.translation.2.1, v) }
  | .rotate_x => { cp with rotation := (v, cp.rotation.2.1, cp.rotation.2.2) }
  | .rotate_y => { cp with rotation := (cp.rotation.1, v, cp.rotation.2.2) }
  | .rotate_z => { cp with rotation := (cp.rotation.1, cp.rotation.2.1, v) }
  | .focal_length => { cp with focal_length := v }
  | .film_offset_x => { cp with film_offset_x := v }
  | .film_offset_y => { cp with film_offset_y := v }

/-- `CameraParameters.is_parameter_locked`. -/
def is_parameter_locked (cp : CameraParameters) (param_name : ParamName) : Bool :=
  (cp.constraints param_name).is_locked

/-- `CameraParameters.lock_parameter`. -/
def lock_parameter (cp : CameraParameters) (param_name : ParamName)
    (locked : Bool) : CameraParameters :=
  { cp with constraints := fun n =>
      if n = param_name then { cp.constraints param_name with is_locked := locked }
      else cp.constraints n }

/-- `CameraParameters.get_unlocked_parameter_names`: the canonical order
filtered to unlocked names. -/
def get_unlocked_parameter_names (cp : CameraParameters) : List ParamName :=
  param_names.filter (fun n => !is_parameter_locked cp n)

/-- `CameraParameters.get_parameter_vector`. -/
def get_parameter_vector (cp : CameraParameters) : List ℚ :=
  (get_unlocked_parameter_names cp).map (get_parameter_value cp)

/-- `CameraParameters.set_parameter_vector`: count check first (so a
mismatch writes nothing), then the clamp-on-set write of each value into
the corresponding unlocked name in canonical order. -/
def set_parameter_vector (cp : CameraParameters) (values : List ℚ) :
    Except String CameraParameters :=
  let unlocked_params := get_unlocked_parameter_names cp
  if values.length ≠ unlocked_params.length then
    .error "Parameter count mismatch"
  else
    .ok ((unlocked_params.zip values).foldl
      (fun acc nv => set_parameter_value acc nv.1 nv.2) cp)

/-- `CameraOptimizer._get_parameter_bounds` (`core/optimization.py`):
per unlocked name, the constraint's bound or the infinite sentinel
(`none` models `±np.inf`). -/
def get_parameter_bounds (cp : CameraParameters) :
    List (Option ℚ) × List (Option ℚ) :=
  ((get_unlocked_parameter_names cp).map (fun n => (cp.constraints n).min_value),
   (get_unlocked_parameter_names cp).map (fun n => (cp.constraints n).max_value))

/-! ## Locking and the parameter vector (C8) -/

theorem param_names_nodup : param_names.Nodup := by decide

/-- Erasing an index commutes with mapping. -/
theorem map_eraseIdx {α β : Type} (f : α → β) :
    ∀ (l : List α) (i : Nat), (l.eraseIdx i).map f = (l.map f).eraseIdx i := by
  intro l
  induction l with
  | nil => intro i; rfl
  | cons a t ih =>
    intro i
    cases i with
    | zero => rfl
    | succ j => simp [List.eraseIdx, ih]

/-- Locking never changes a stored parameter value. -/
theorem get_parameter_value_lock (cp : CameraParameters) (p : ParamName)
    (b : Bool) (n : ParamName) :
    get_parameter_value (lock_parameter cp p b) n = get_parameter_value cp n := by
  cases n <;> rfl

/-- Locking never changes any bound. -/
theorem constraints_lock_bounds (cp : CameraParameters) (p : ParamName)
    (b : Bool) (n : ParamName) :
    ((lock_parameter cp p b).constraints n).min_value = (cp.constraints n).min_value ∧
    ((lock_parameter cp p b).constraints n).max_value = (cp.constraints n).max_value := by
  unfold lock_parameter
  by_cases hn : n = p <;> simp [hn]

/-- The lock status after `lock_parameter`. -/
theorem is_parameter_locked_lock (cp : CameraParameters) (p : ParamName)
    (b : Bool) (n : ParamName) :
    is_parameter_locked (lock_parameter cp p b) n =
      if n = p then b else is_parameter_locked cp n := by
  unfold is_parameter_locked lock_parameter
  by_cases hn : n = p <;> simp [hn]

/-- On a duplicate-free list, filtering out one element is the same as
erasing the index at which it sits. -/
theorem filter_ne_eq_eraseIdx_indexOf {α : Type} [DecidableEq α] :
    ∀ (l : List α), l.Nodup → ∀ (x : α),
      l.filter (fun n => decide (n ≠ x)) = l.eraseIdx (l.indexOf x) := by
  intro l
  induction l with
  | nil => intro _ x; rfl
  | cons a t ih =>
    intro hnd x
    have hat : a ∉ t := (List.nodup_cons.mp hnd).1
    have hnt : t.Nodup := (List.nodup_cons.mp hnd).2
    by_cases hax : a = x
    · subst hax
      rw [List.indexOf_cons_self]
      simp only [List.eraseIdx_zero, List.tail_cons, List.filter_cons]
      simp only [ne_eq, not_true_eq_false, decide_False, Bool.false_eq_true,
        if_false]
      exact List.filter_eq_self.mpr fun b hb => by
        simp only [ne_eq, decide_eq_true_eq]
        exact fun hbx => hat (hbx ▸ hb)
    · rw [List.indexOf_cons_ne _ hax]
      simp only [List.filter_cons, ne_eq, hax, not_false_eq_true, decide_True,
        if_true, List.eraseIdx_cons_succ]
      rw [ih hnt x]

/-- Locking an unlocked name erases exactly its position from the
unlocked-name list. -/
theorem unlocked_names_lock (cp : CameraParameters) (p : ParamName) :
    get_unlocked_parameter_names (lock_parameter cp p true) =
      (get_unlocked_parameter_names cp).eraseIdx
        ((get_unlocked_parameter_names cp).indexOf p) := by
  have hstep1 : get_unlocked_parameter_names (lock_parameter cp p true) =
      param_names.filter (fun n => decide (n ≠ p) && !is_parameter_locked cp n) := by
    unfold get_unlocked_parameter_names
    refine List.filter_congr ?_
    intro n _
    rw [is_parameter_locked_lock]
    by_cases hn : n = p <;> simp [hn]
  have hnd : (get_unlocked_parameter_names cp).Nodup :=
    List.Nodup.filter _ param_names_nodup
  rw [hstep1, ← List.filter_filter]
  exact filter_ne_eq_eraseIdx_indexOf _ hnd p

/-- C8: locking a currently-unlocked parameter removes exactly one entry
— at one and the same index, namely the parameter's position among the
unlocked names — from `get_parameter_vector` and from both bound arrays
of `_get_parameter_bounds`, leaving the remaining entries (an
`eraseIdx`) in their relative order. -/
theorem lock_removes_one_entry (cp : CameraParameters) (p : ParamName)
    (h : is_parameter_locked cp p = false) :
    ∃ i, i < (get_parameter_vector cp).length ∧
      get_parameter_vector (lock_parameter cp p true) =
        (get_parameter_vector cp).eraseIdx i ∧
      (get_parameter_bounds (lock_parameter cp p true)).1 =
        (get_parameter_bounds cp).1.eraseIdx i ∧
      (get_parameter_bounds (lock_parameter cp p true)).2 =
        (get_parameter_bounds cp).2.eraseIdx i ∧
      (get_parameter_vector (lock_parameter cp p true)).length + 1 =
        (get_parameter_vector cp).length := by
  have hmem : p ∈ get_unlocked_parameter_names cp := by
    unfold get_unlocked_parameter_names
    rw [List.mem_filter]
    exact ⟨by cases p <;> decide, by simp [h]⟩
  have hlt : (get_unlocked_parameter_names cp).indexOf p <
      (get_unlocked_parameter_names cp).length :=
    List.indexOf_lt_length.mpr hmem
  have hnames := unlocked_names_lock cp p
  have hvec : get_parameter_vector (lock_parameter cp p true) =
      (get_parameter_vector cp).eraseIdx
        ((get_unlocked_parameter_names cp).indexOf p) := by
    unfold get_parameter_vector
    rw [List.map_congr_left fun n _ => get_parameter_value_lock cp p true n,
      hnames, map_eraseIdx]
  have hlenv : (get_unlocked_parameter_names cp).indexOf p <
      (get_parameter_vector cp).length := by
    simpa [get_parameter_vector] using hlt
  refine ⟨(get_unlocked_parameter_names cp).indexOf p, hlenv, hvec, ?_, ?_, ?_⟩
  · show ((get_unlocked_parameter_names (lock_parameter cp p true)).map
        fun n => (((lock_parameter cp p true).constraints n)).min_value) =
      ((get_unlocked_parameter_names cp).map
        fun n => ((cp.constraints n)).min_value).eraseIdx
        ((get_unlocked_parameter_names cp).indexOf p)
    rw [List.map_congr_left fun n _ => (constraints_lock_bounds cp p true n).1,
      hnames, map_eraseIdx]
  · show ((get_unlocked_parameter_names (lock_parameter cp p true)).map
        fun n => (((lock_parameter cp p true).constraints n)).max_value) =
      ((get_unlocked_parameter_names cp).map
        fun n => ((cp.constraints n)).max_value).eraseIdx
        ((get_unlocked_parameter_names cp).indexOf p)
    rw [List.map_congr_left fun n _ => (constraints_lock_bounds cp p true n).2,
      hnames, map_eraseIdx]
  · rw [hvec]
    exact List.length_eraseIdx_add_one hlenv

/-- A concrete parameter set with the constructor's constraint table. -/
def cpDefault : CameraParameters :=
  { camera_name := "cam"
    camera_shape := "camShape"
    translation := (1, 2, 3)
    rotation := (4, 5, 6)
    focal_length := 35
    film_offset_x := 0
    film_offset_y := 0
    film_aperture_h := 36
    film_aperture_v := 24
    constraints := defaultConstraints }

/-- Witness for C8: locking `translate_y` on the default parameter set. -/
theorem lock_removes_one_entry_witness :
    is_parameter_locked cpDefault .translate_y = false ∧
    ∃ i, i < (get_parameter_vector cpDefault).length ∧
      get_parameter_vector (lock_parameter cpDefault .translate_y true) =
        (get_parameter_vector cpDefault).eraseIdx i ∧
      (get_parameter_bounds (lock_parameter cpDefault .translate_y true)).1 =
        (get_parameter_bounds cpDefault).1.eraseIdx i ∧
      (get_parameter_bounds (lock_parameter cpDefault .translate_y true)).2 =
        (get_parameter_bounds cpDefault).2.eraseIdx i ∧
      (get_parameter_vector (lock_parameter cpDefault .translate_y true)).length + 1 =
        (get_parameter_vector cpDefault).length :=
  ⟨rfl, lock_removes_one_entry cpDefault .translate_y rfl⟩

/-! ## Writing the parameter vector (C5) -/

/-- A single write never touches the constraint table. -/
theorem set_parameter_value_constraints (cp : CameraParameters) (n : ParamName)
    (v : ℚ) : (set_parameter_value cp n v).constraints = cp.constraints := by
  cases n <;> rfl

/-- Reading after a single write: the written name holds the clamped
value, every other name is untouched. -/
theorem get_set_parameter_value (cp : CameraParameters) (n : ParamName)
    (v : ℚ) (m : ParamName) :
    get_parameter_value (set_parameter_value cp n v) m =
      if m = n then clamp_value (cp.constraints n) v
      else get_parameter_value cp m := by
  cases n <;> cases m <;> simp [set_parameter_value, get_parameter_value]

/-- The write step `set_parameter_vector` folds with. -/
def writeStep (acc : CameraParameters) (nv : ParamName × ℚ) : CameraParameters :=
  set_parameter_value acc nv.1 nv.2

/-- Folded writes never touch the constraint table. -/
theorem foldl_writeStep_constraints :
    ∀ (ps : List (ParamName × ℚ)) (cp : CameraParameters),
      (ps.foldl writeStep cp).constraints = cp.constraints := by
  intro ps
  induction ps with
  | nil => intro cp; rfl
  | cons q t ih =>
    intro cp
    rw [List.foldl_cons, ih]
    exact set_parameter_value_constraints cp q.1 q.2

/-- A name none of the folded writes mention keeps its value. -/
theorem foldl_writeStep_get_of_not_mem :
    ∀ (ps : List (ParamName × ℚ)) (cp : CameraParameters) (m : ParamName),
      (∀ q ∈ ps, q.1 ≠ m) →
      get_parameter_value (ps.foldl writeStep cp) m = get_parameter_value cp m := by
  intro ps
  induction ps with
  | nil => intro cp m _; rfl
  | cons q t ih =>
    intro cp m hnm
    rw [List.foldl_cons, ih _ m fun r hr => hnm r (List.mem_cons_of_mem q hr)]
    rw [show writeStep cp q = set_parameter_value cp q.1 q.2 from rfl,
      get_set_parameter_value]
    simp [Ne.symm (hnm q (List.mem_cons_self q t))]

/-- Folding the zipped writes stores, at each position of a
duplicate-free name list, the corresponding value clamped through the
pre-existing constraint of that name. -/
theorem foldl_writeStep_get_indexed :
    ∀ (names : List ParamName) (vals : List ℚ) (cp : CameraParameters),
      names.Nodup →
      ∀ i (hi : i < names.length) (hv : i < vals.length),
        get_parameter_value ((names.zip vals).foldl writeStep cp)
            (names.get ⟨i, hi⟩) =
          clamp_value (cp.constraints (names.get ⟨i, hi⟩)) (vals.get ⟨i, hv⟩) := by
  intro names
  induction names with
  | nil => intro vals cp _ i hi; exact absurd hi (by simp)
  | cons n t ih =>
    intro vals cp hnd i hi hv
    rcases vals with _ | ⟨v, vs⟩
    · exact absurd hv (by simp)
    rw [List.zip_cons_cons, List.foldl_cons]
    rcases i with _ | j
    · have hnot : ∀ q ∈ t.zip vs, q.1 ≠ n := by
        intro q hq
        have := (List.of_mem_zip hq).1
        intro hqn
        exact (List.nodup_cons.mp hnd).1 (hqn ▸ this)
      show get_parameter_value ((t.zip vs).foldl writeStep (writeStep cp (n, v))) n =
        clamp_value (cp.constraints n) v
      rw [foldl_writeStep_get_of_not_mem _ _ n hnot]
      rw [show writeStep cp (n, v) = set_parameter_value cp n v from rfl,
        get_set_parameter_value]
      simp
    · have hjt : j < t.length := by simpa using hi
      have hjv : j < vs.length := by simpa using hv
      have := ih vs (writeStep cp (n, v)) (List.nodup_cons.mp hnd).2 j hjt hjv
      rw [show (t.get ⟨j, hjt⟩) = (n :: t).get ⟨j + 1, hi⟩ from rfl] at this
      rw [this]
      congr 1
      rw [show writeStep cp (n, v) = set_parameter_value cp n v from rfl,
        set_parameter_value_constraints]

/-- Unlocked names are duplicate-free. -/
theorem unlocked_names_nodup (cp : CameraParameters) :
    (get_unlocked_parameter_names cp).Nodup :=
  List.Nodup.filter _ param_names_nodup

/-- C5: `set_parameter_vector` fails with the count-mismatch error — and,
returning before any write, changes no parameter value — whenever the
list's length differs from the number of unlocked parameters; otherwise
it succeeds and each value is written through the clamp-on-set path into
the unlocked name at the same position of the canonical order, while
locked parameters and the constraint table are untouched. -/
theorem set_parameter_vector_spec (cp : CameraParameters) (values : List ℚ) :
    (values.length ≠ (get_unlocked_parameter_names cp).length →
      set_parameter_vector cp values = .error "Parameter count mismatch") ∧
    (values.length = (get_unlocked_parameter_names cp).length →
      ∃ cp2, set_parameter_vector cp values = .ok cp2 ∧
        (∀ i (hi : i < (get_unlocked_parameter_names cp).length)
            (hv : i < values.length),
          get_parameter_value cp2 ((get_unlocked_parameter_names cp).get ⟨i, hi⟩) =
            clamp_value
              (cp.constraints ((get_unlocked_parameter_names cp).get ⟨i, hi⟩))
              (values.get ⟨i, hv⟩)) ∧
        (∀ n, is_parameter_locked cp n = true →
          get_parameter_value cp2 n = get_parameter_value cp n) ∧
        cp2.constraints = cp.constraints) := by
  constructor
  · intro hne
    unfold set_parameter_vector
    simp [hne]
  · intro heq
    refine ⟨((get_unlocked_parameter_names cp).zip values).foldl writeStep cp,
      ?_, ?_, ?_, ?_⟩
    · unfold set_parameter_vector
      simp only [heq, ne_eq, not_true_eq_false, if_false]
      rfl
    · intro i hi hv
      exact foldl_writeStep_get_indexed (get_unlocked_parameter_names cp)
        values cp (unlocked_names_nodup cp) i hi hv
    · intro n hn
      refine foldl_writeStep_get_of_not_mem _ _ n fun q hq => ?_
      have hqmem := (List.of_mem_zip hq).1
      intro hqn
      have : is_parameter_locked cp q.1 = false := by
        have := (List.mem_filter.mp hqmem).2
        simpa using this
      rw [hqn, hn] at this
      exact Bool.true_eq_false ▸ (by simp at this)
    · exact foldl_writeStep_constraints _ cp

/-- Witness for C5: on the default parameter set, a two-value list is
rejected, and a full nine-value write succeeds with clamping (the focal
length value 2000 clamps to 1000, the film offset -100 clamps to -50). -/
theorem set_parameter_vector_spec_witness :
    set_parameter_vector cpDefault [1, 2] = .error "Parameter count mismatch" ∧
    (∃ cp2, set_parameter_vector cpDefault
        [10, 20, 30, 40, 50, 60, 2000, -100, 5] = .ok cp2 ∧
      (∀ i (hi : i < (get_unlocked_parameter_names cpDefault).length)
          (hv : i < ([10, 20, 30, 40, 50, 60, 2000, -100, 5] : List ℚ).length),
        get_parameter_value cp2
            ((get_unlocked_parameter_names cpDefault).get ⟨i, hi⟩) =
          clamp_value
            (cpDefault.constraints
              ((get_unlocked_parameter_names cpDefault).get ⟨i, hi⟩))
            (([10, 20, 30, 40, 50, 60, 2000, -100, 5] : List ℚ).get ⟨i, hv⟩)) ∧
      (∀ n, is_parameter_locked cpDefault n = true →
        get_parameter_value cp2 n = get_parameter_value cpDefault n) ∧
      cp2.constraints = cpDefault.constraints) :=
  ⟨(set_parameter_vector_spec cpDefault [1, 2]).1 (by decide),
   (set_parameter_vector_spec cpDefault
      [10, 20, 30, 40, 50, 60, 2000, -100, 5]).2 (by decide)⟩

/-! ## CameraOptimizer (`core/optimization.py`)

The scipy solvers (`least_squares`, `minimize`) are external
collaborators.  A `SolverOracle` records the observable behaviour of one
solver call: the sequence of trial vectors at which it evaluates the
function handed to it (the final point `x` is always evaluated last),
and the fields of the result object the source reads. -/

/-- Optimizer configuration: image size, whether a progress callback is
set, and the `__init__` defaults for method and budget. -/
structure OptimizerConfig where
  image_width : ℚ
  image_height : ℚ
  callback_set : Bool
  method : String := "lm"
  max_iterations : Nat := 1000

/-- Modelled from the spec: the external scipy solver as a black box
("iterate ... or a maximum evaluation/iteration budget is hit"). -/
structure SolverOracle where
  trials : List (List ℚ)
  x : List ℚ
  success : Bool
  nfev : Nat
  nit : Nat

/-- The mutable state an evaluation touches: the parameter set, the pair
list (whose latch flags a projection read may lower), the evaluation
counter `self.iteration_count`, and the record of progress-callback
invocations (model instrumentation of `self.progress_callback(...)`). -/
structure EvalState where
  camera_params : CameraParameters
  locator_pairs : List LocatorPair
  iteration_count : Nat
  events : List (Nat × ℚ)

/-- The per-pair residual loop of `_objective_function` (lines 75–95):
invalid pairs are skipped, a successful projection contributes the two
pixel residuals, a failed projection contributes the `(1000, 1000)`
penalty pair. -/
def residuals_for_pairs (s : Scene) (camera_transform : String)
    (image_width image_height : ℚ) :
    List LocatorPair → List ℚ × List LocatorPair
  | [] => ([], [])
  | lp :: rest =>
    if is_valid s lp = false then
      let r := residuals_for_pairs s camera_transform image_width image_height rest
      (r.1, lp :: r.2)
    else
      match get_projected_coords s camera_transform lp with
      | (.ok proj_ndc, lp') =>
        let proj_pixel_x := (proj_ndc.1 + 1) * (1/2) * image_width
        let proj_pixel_y := (1 - proj_ndc.2) * (1/2) * image_height
        let dx := proj_pixel_x - lp'.pixel_coords.1
        let dy := proj_pixel_y - lp'.pixel_coords.2
        let r := residuals_for_pairs s camera_transform image_width image_height rest
        (dx :: dy :: r.1, lp' :: r.2)
      | (.error _, lp') =>
        let r := residuals_for_pairs s camera_transform image_width image_height rest
        ((1000 : ℚ) :: (1000 : ℚ) :: r.1, lp' :: r.2)

/-- `CameraOptimizer._objective_function`: write the trial vector into
the parameter set (a count mismatch raises out of the evaluation), then
collect the residuals of all currently-valid pairs.  No progress
callback is invoked here. -/
def objective_function (s : Scene) (cfg : OptimizerConfig) (st : EvalState)
    (params : List ℚ) : Except String (List ℚ × EvalState) :=
  match set_parameter_vector st.camera_params params with
  | .error e => .error e
  | .ok cp' =>
    let r := residuals_for_pairs s cp'.camera_name cfg.image_width
      cfg.image_height st.locator_pairs
    .ok (r.1, { st with camera_params := cp', locator_pairs := r.2 })

/-- `np.sum(residuals ** 2)`. -/
def sum_squares (rs : List ℚ) : ℚ := (rs.map fun r => r * r).sum

/-- `CameraOptimizer._cost_function`: the summed squared residuals, the
incremented evaluation counter, and — when a callback is set — exactly
one recorded invocation `(iteration_count, cost)`. -/
def cost_function (s : Scene) (cfg : OptimizerConfig) (st : EvalState)
    (params : List ℚ) : Except String (ℚ × EvalState) :=
  match objective_function s cfg st params with
  | .error e => .error e
  | .ok (rs, st') =>
    let cost := sum_squares rs
    let count := st'.iteration_count + 1
    let evs := if cfg.callback_set then st'.events ++ [(count, cost)] else st'.events
    .ok (cost, { st' with iteration_count := count, events := evs })

/-- The evaluations a `least_squares` call performs: the objective at
each trial vector in turn, the last result standing for `result.fun`. -/
def run_objective_list (s : Scene) (cfg : OptimizerConfig) (st : EvalState)
    (vs : List (List ℚ)) : Except String (List ℚ × EvalState) :=
  vs.foldlM (fun acc v => objective_function s cfg acc.2 v) ([], st)

/-- The evaluations a `minimize` call performs: the cost function at
each trial vector in turn, the last result standing for `result.fun`. -/
def run_cost_list (s : Scene) (cfg : OptimizerConfig) (st : EvalState)
    (vs : List (List ℚ)) : Except String (ℚ × EvalState) :=
  vs.foldlM (fun acc v => cost_function s cfg acc.2 v) (0, st)

/-- What `CameraOptimizer.optimize` hands back (the returned tuple plus
the mutated state the Python object keeps). -/
structure OptimizeOutput where
  success : Bool
  final_error : ℚ
  iterations : Nat
  state : EvalState

/-- The error taxonomy of `optimize`: `setupInvalid` models the
precondition `ValueError`s of lines 156–170, `optimizationFailed` the
wrapping `RuntimeError` of line 230. -/
inductive OptError where
  | setupInvalid (msg : String)
  | optimizationFailed (msg : String)
deriving Repr, DecidableEq

/-- `CameraOptimizer.optimize`: the four precondition checks, then the
`least_squares` path for 'lm'/'trf'/'dogbox' (objective, no callback) or
the `minimize` path otherwise (cost function, callback), and in either
case the final `set_parameter_vector(result.x)` write-back before the
result tuple is returned. -/
def optimize (s : Scene) (cfg : OptimizerConfig) (oracle : SolverOracle)
    (camera_params : CameraParameters) (locator_pairs : List LocatorPair)
    (method : Option String) : Except OptError OptimizeOutput :=
  if locator_pairs.isEmpty then
    .error (.setupInvalid "No locator pairs available for optimization")
  else
    let valid_pairs := locator_pairs.filter (fun p => is_valid s p)
    if valid_pairs.isEmpty then
      .error (.setupInvalid "No valid locator pairs available for optimization")
    else if valid_pairs.length < 3 then
      .error (.setupInvalid "At least 3 valid locator pairs are required for optimization")
    else
      let initial_params := get_parameter_vector camera_params
      if initial_params.length = 0 then
        .error (.setupInvalid "No unlocked parameters available for optimization")
      else
        let st0 : EvalState := ⟨camera_params, locator_pairs, 0, []⟩
        let opt_method := method.getD cfg.method
        if opt_method = "lm" ∨ opt_method = "trf" ∨ opt_method = "dogbox" then
          match run_objective_list s cfg st0 (oracle.trials ++ [oracle.x]) with
          | .error e => .error (.optimizationFailed e)
          | .ok (final_fun, st1) =>
            match set_parameter_vector st1.camera_params oracle.x with
            | .error e => .error (.optimizationFailed e)
            | .ok cp2 =>
              .ok { success := oracle.success
                    final_error := sum_squares final_fun
                    iterations := oracle.nfev
                    state := { st1 with camera_params := cp2 } }
        else
          match run_cost_list s cfg st0 (oracle.trials ++ [oracle.x]) with
          | .error e => .error (.optimizationFailed e)
          | .ok (final_cost, st1) =>
            match set_parameter_vector st1.camera_params oracle.x with
            | .error e => .error (.optimizationFailed e)
            | .ok cp2 =>
              .ok { success := oracle.success
                    final_error := final_cost
                    iterations := oracle.nit
                    state := { st1 with camera_params := cp2 } }

/-- `CameraOptimizer.validate_setup` (scipy availability and the
never-raising `camera_transform` read always pass). -/
def validate_setup (s : Scene) (cfg : OptimizerConfig)
    (camera_params : CameraParameters) (locator_pairs : List LocatorPair) :
    Bool × String :=
  if locator_pairs.isEmpty then (false, "No locator pairs available")
  else if (locator_pairs.filter (fun p => is_valid s p)).length < 3 then
    (false, "At least 3 valid locator pairs required")
  else if (get_unlocked_parameter_names camera_params).isEmpty then
    (false, "No unlocked parameters available for optimization")
  else if cfg.image_width ≤ 0 ∨ cfg.image_height ≤ 0 then
    (false, "Invalid image dimensions")
  else (true, "Setup is valid")

/-- Pointwise update of one key of a scene table. -/
def updateFn {α : Type} (f : String → α) (key : String) (v : α) : String → α :=
  fun n => if n = key then v else f n

/-- `CameraParameters.apply_to_maya`: existence check, then the writes of
the stored extrinsics to the camera transform and of the intrinsics
(offsets converted back to inches) to the camera shape. -/
def apply_to_maya (cp : CameraParameters) (s : Scene) : Except String Scene :=
  if s.objExists cp.camera_name = false then
    .error "Camera does not exist in scene"
  else
    .ok { s with
      camTranslation := updateFn s.camTranslation cp.camera_name cp.translation
      camRotation := updateFn s.camRotation cp.camera_name cp.rotation
      focalLength := updateFn s.focalLength cp.camera_shape cp.focal_length
      horizontalFilmOffset :=
        updateFn s.horizontalFilmOffset cp.camera_shape (cp.film_offset_x / inchToMM)
      verticalFilmOffset :=
        updateFn s.verticalFilmOffset cp.camera_shape (cp.film_offset_y / inchToMM) }

/-- What `CameraMatcher.optimize_camera` hands back: the result tuple,
the mutated in-memory state, and the scene as the run leaves it. -/
structure MatchOutput where
  success : Bool
  final_error : ℚ
  iterations : Nat
  state : EvalState
  scene : Scene

/-- `CameraMatcher.optimize_camera` (`core/camera_matcher.py` lines
223–248): validate, optimize, and apply the result to the Maya camera
only under `if success`. -/
def optimize_camera (s : Scene) (cfg : OptimizerConfig) (oracle : SolverOracle)
    (camera_params : CameraParameters) (locator_pairs : List LocatorPair)
    (method : Option String) : Except String MatchOutput :=
  let v := validate_setup s cfg camera_params locator_pairs
  if v.1 = false then .error ("Optimization setup invalid: " ++ v.2)
  else
    match optimize s cfg oracle camera_params locator_pairs method with
    | .error (.setupInvalid e) => .error e
    | .error (.optimizationFailed e) => .error e
    | .ok out =>
      if out.success then
        match apply_to_maya out.state.camera_params s with
        | .error e => .error e
        | .ok s2 => .ok ⟨out.success, out.final_error, out.iterations, out.state, s2⟩
      else
        .ok ⟨out.success, out.final_error, out.iterations, out.state, s⟩

/-! ## Concrete fixtures for the optimizer claims -/

/-- The parameter vector of `cpDefault` (all nine parameters unlocked). -/
def vec0 : List ℚ := [1, 2, 3, 4, 5, 6, 35, 0, 0]

/-- A 1920×1080 configuration with a progress callback set. -/
def cfgCB : OptimizerConfig :=
  { image_width := 1920, image_height := 1080, callback_set := true }

/-- Three valid pairs, all observing the image center. -/
def lpA : LocatorPair := ⟨"locatorA", (960, 540), some 1, true⟩

def lpB : LocatorPair := ⟨"locatorB", (960, 540), some 2, true⟩

def lpC : LocatorPair := ⟨"locatorC", (960, 540), some 3, true⟩

def pairs3 : List LocatorPair := [lpA, lpB, lpC]

def pairs2 : List LocatorPair := [lpA, lpB]

/-- A solver run reporting non-success after a single evaluation at the
final point. -/
def oracleFail : SolverOracle :=
  { trials := [], x := vec0, success := false, nfev := 1, nit := 1 }

/-- A solver run reporting success after a single evaluation at the
final point. -/
def oracleOK : SolverOracle :=
  { trials := [], x := vec0, success := true, nfev := 1, nit := 1 }

/-! ## Preconditions (C4) -/

/-- C4: with fewer than three currently-valid pairs, `optimize` fails
with a setup error (a precondition `ValueError`, the spec's
`SetupInvalid`) for every camera parameter set, and the outcome is the
same whatever solver stands behind it — no solver iteration happens. -/
theorem optimize_setup_invalid (s : Scene) (cfg : OptimizerConfig)
    (oracle : SolverOracle) (camera_params : CameraParameters)
    (locator_pairs : List LocatorPair) (method : Option String)
    (h : (locator_pairs.filter (fun p => is_valid s p)).length < 3) :
    (∃ msg, optimize s cfg oracle camera_params locator_pairs method =
      .error (.setupInvalid msg)) ∧
    ∀ oracle2, optimize s cfg oracle camera_params locator_pairs method =
      optimize s cfg oracle2 camera_params locator_pairs method := by
  have hres : ∀ (o : SolverOracle),
      optimize s cfg o camera_params locator_pairs method =
        if locator_pairs.isEmpty then
          .error (.setupInvalid "No locator pairs available for optimization")
        else if (locator_pairs.filter (fun p => is_valid s p)).isEmpty then
          .error (.setupInvalid "No valid locator pairs available for optimization")
        else
          .error (.setupInvalid
            "At least 3 valid locator pairs are required for optimization") := by
    intro o
    by_cases h1 : locator_pairs.isEmpty
    · simp [optimize, h1]
    · by_cases h2 : (locator_pairs.filter (fun p => is_valid s p)).isEmpty
      · simp [optimize, h1, h2]
      · simp [optimize, h1, h2, h]
  constructor
  · rw [hres oracle]
    by_cases h1 : locator_pairs.isEmpty
    · exact ⟨"No locator pairs available for optimization", by simp [h1]⟩
    · by_cases h2 : (locator_pairs.filter (fun p => is_valid s p)).isEmpty
      · exact ⟨"No valid locator pairs available for optimization", by simp [h1, h2]⟩
      · exact ⟨"At least 3 valid locator pairs are required for optimization",
          by simp [h1, h2]⟩
  · intro o2
    rw [hres oracle, hres o2]

/-- Witness for C4: two valid pairs, so the run is rejected before any
solver work, with the same outcome for a failing and a succeeding
solver oracle. -/
theorem optimize_setup_invalid_witness :
    (pairs2.filter (fun p => is_valid sceneFront p)).length < 3 ∧
    (∃ msg, optimize sceneFront cfgCB oracleFail cpDefault pairs2 none =
      .error (.setupInvalid msg)) ∧
    ∀ oracle2, optimize sceneFront cfgCB oracleFail cpDefault pairs2 none =
      optimize sceneFront cfgCB oracle2 cpDefault pairs2 none :=
  ⟨by decide,
   (optimize_setup_invalid sceneFront cfgCB oracleFail cpDefault pairs2 none
      (by decide)).1,
   (optimize_setup_invalid sceneFront cfgCB oracleFail cpDefault pairs2 none
      (by decide)).2⟩

/-! ## The progress callback (C2) -/

/-- Inverting a successful `set_parameter_vector`: the length check
passed and the result is the canonical fold of clamped writes. -/
theorem set_parameter_vector_ok (cp : CameraParameters) (values : List ℚ)
    (cp2 : CameraParameters) (h : set_parameter_vector cp values = .ok cp2) :
    values.length = (get_unlocked_parameter_names cp).length ∧
    cp2 = ((get_unlocked_parameter_names cp).zip values).foldl writeStep cp := by
  simp only [set_parameter_vector] at h
  split at h
  · simp at h
  · rename_i hne
    rw [not_not] at hne
    exact ⟨hne, (Except.ok.inj h).symm⟩

/-- An objective evaluation records no callback invocation, does not
touch the evaluation counter, and leaves the constraint table alone. -/
theorem objective_function_ok_state (s : Scene) (cfg : OptimizerConfig)
    (st : EvalState) (params : List ℚ) (rs : List ℚ) (st2 : EvalState)
    (h : objective_function s cfg st params = .ok (rs, st2)) :
    st2.events = st.events ∧ st2.iteration_count = st.iteration_count ∧
    st2.camera_params.constraints = st.camera_params.constraints := by
  unfold objective_function at h
  rcases hsp : set_parameter_vector st.camera_params params with e | cp2
  · rw [hsp] at h
    simp at h
  · rw [hsp] at h
    simp only [Except.ok.injEq, Prod.mk.injEq] at h
    obtain ⟨-, hst⟩ := h
    obtain ⟨-, hfold⟩ := set_parameter_vector_ok st.camera_params params cp2 hsp
    rw [← hst]
    refine ⟨rfl, rfl, ?_⟩
    show cp2.constraints = st.camera_params.constraints
    rw [hfold]
    exact foldl_writeStep_constraints _ st.camera_params

/-- A sequence of objective evaluations records no callback invocation. -/
theorem run_objective_list_state (s : Scene) (cfg : OptimizerConfig) :
    ∀ (vs : List (List ℚ)) (acc out : List ℚ × EvalState),
      vs.foldlM (fun a v => objective_function s cfg a.2 v) acc = .ok out →
      out.2.events = acc.2.events ∧
      out.2.iteration_count = acc.2.iteration_count ∧
      out.2.camera_params.constraints = acc.2.camera_params.constraints := by
  intro vs
  induction vs with
  | nil =>
    intro acc out h
    simp only [List.foldlM_nil] at h
    obtain rfl := Except.ok.inj h
    exact ⟨rfl, rfl, rfl⟩
  | cons v t ih =>
    intro acc out h
    rw [List.foldlM_cons] at h
    rcases ho : objective_function s cfg acc.2 v with e | r
    · rw [ho] at h
      simp [Bind.bind, Except.bind] at h
    · rw [ho] at h
      simp only [Bind.bind, Except.bind] at h
      rcases r with ⟨rs, st2⟩
      obtain ⟨he, hc, hk⟩ := objective_function_ok_state s cfg acc.2 v rs st2 ho
      obtain ⟨he2, hc2, hk2⟩ := ih (rs, st2) out h
      have he2' : out.2.events = st2.events := he2
      have hc2' : out.2.iteration_count = st2.iteration_count := hc2
      have hk2' : out.2.camera_params.constraints = st2.camera_params.constraints := hk2
      exact ⟨he2'.trans he, hc2'.trans hc, hk2'.trans hk⟩

/-- A cost evaluation bumps the counter by one and, when a callback is
set, records exactly one invocation carrying the new counter value and
the cost it reported. -/
theorem cost_function_ok_state (s : Scene) (cfg : OptimizerConfig)
    (st : EvalState) (params : List ℚ) (c : ℚ) (st2 : EvalState)
    (h : cost_function s cfg st params = .ok (c, st2)) :
    st2.iteration_count = st.iteration_count + 1 ∧
    st2.camera_params.constraints = st.camera_params.constraints ∧
    st2.events = (if cfg.callback_set then
      st.events ++ [(st.iteration_count + 1, c)] else st.events) := by
  unfold cost_function at h
  rcases ho : objective_function s cfg st params with e | r
  · rw [ho] at h
    simp at h
  · rw [ho] at h
    rcases r with ⟨rs, st1⟩
    obtain ⟨hev, hcount, hcon⟩ := objective_function_ok_state s cfg st params rs st1 ho
    simp only [Except.ok.injEq, Prod.mk.injEq] at h
    obtain ⟨hc, hst⟩ := h
    rw [← hst]
    refine ⟨by simp [hcount], by simp [hcon], ?_⟩
    show (if cfg.callback_set then
        st1.events ++ [(st1.iteration_count + 1, sum_squares rs)] else st1.events) =
      (if cfg.callback_set then st.events ++ [(st.iteration_count + 1, c)] else st.events)
    rw [hev, hcount, hc]

/-- Chained cost evaluations with a callback: the recorded invocations
stay numbered `1, 2, …`, one is added per evaluation, and the constraint
table survives. -/
theorem run_cost_list_numbering (s : Scene) (cfg : OptimizerConfig)
    (hcb : cfg.callback_set = true) :
    ∀ (vs : List (List ℚ)) (acc out : ℚ × EvalState),
      vs.foldlM (fun a v => cost_function s cfg a.2 v) acc = .ok out →
      acc.2.events.map Prod.fst = List.range' 1 acc.2.events.length →
      acc.2.events.length = acc.2.iteration_count →
      out.2.events.map Prod.fst = List.range' 1 out.2.events.length ∧
      out.2.events.length = acc.2.events.length + vs.length ∧
      out.2.camera_params.constraints = acc.2.camera_params.constraints := by
  intro vs
  induction vs with
  | nil =>
    intro acc out h hmap hlen
    simp only [List.foldlM_nil] at h
    obtain rfl := Except.ok.inj h
    exact ⟨hmap, by simp, rfl⟩
  | cons v t ih =>
    intro acc out h hmap hlen
    rw [List.foldlM_cons] at h
    rcases ho : cost_function s cfg acc.2 v with e | r
    · rw [ho] at h
      simp [Bind.bind, Except.bind] at h
    · rw [ho] at h
      simp only [Bind.bind, Except.bind] at h
      rcases r with ⟨c, st2⟩
      obtain ⟨hcount, hcon, hev⟩ := cost_function_ok_state s cfg acc.2 v c st2 ho
      rw [hcb] at hev
      simp only [if_true] at hev
      have hlen2 : st2.events.length = acc.2.events.length + 1 := by
        simp [hev]
      have hmap2 : st2.events.map Prod.fst = List.range' 1 st2.events.length := by
        rw [hev, List.map_append, hmap]
        simp only [List.map_cons, List.map_nil, List.length_append,
          List.length_cons, List.length_nil, Nat.zero_add]
        rw [List.range'_concat]
        congr 2
        omega
      have hcnt2 : st2.events.length = st2.iteration_count := by omega
      obtain ⟨h1, h2, h3⟩ := ih (c, st2) out h hmap2 hcnt2
      refine ⟨h1, ?_, ?_⟩
      · have h2b : out.2.events.length = st2.events.length + t.length := h2
        simp only [List.length_cons]
        omega
      · have h3b : out.2.camera_params.constraints =
          st2.camera_params.constraints := h3
        exact h3b.trans hcon

/-- Chained cost evaluations without a callback record nothing, and the
constraint table survives. -/
theorem run_cost_list_nocb (s : Scene) (cfg : OptimizerConfig)
    (hcb : cfg.callback_set = false) :
    ∀ (vs : List (List ℚ)) (acc out : ℚ × EvalState),
      vs.foldlM (fun a v => cost_function s cfg a.2 v) acc = .ok out →
      out.2.events = acc.2.events ∧
      out.2.camera_params.constraints = acc.2.camera_params.constraints := by
  intro vs
  induction vs with
  | nil =>
    intro acc out h
    simp only [List.foldlM_nil] at h
    obtain rfl := Except.ok.inj h
    exact ⟨rfl, rfl⟩
  | cons v t ih =>
    intro acc out h
    rw [List.foldlM_cons] at h
    rcases ho : cost_function s cfg acc.2 v with e | r
    · rw [ho] at h
      simp [Bind.bind, Except.bind] at h
    · rw [ho] at h
      simp only [Bind.bind, Except.bind] at h
      rcases r with ⟨c, st2⟩
      obtain ⟨-, hcon, hev⟩ := cost_function_ok_state s cfg acc.2 v c st2 ho
      rw [hcb] at hev
      simp only [Bool.false_eq_true, if_false] at hev
      obtain ⟨h1, h2⟩ := ih (c, st2) out h
      have h1b : out.2.events = st2.events := h1
      have h2b : out.2.camera_params.constraints =
        st2.camera_params.constraints := h2
      exact ⟨h1b.trans hev, h2b.trans hcon⟩

/-- C2 (amended): the progress callback is a `_cost_function` feature.
On the `minimize` path (any method other than 'lm'/'trf'/'dogbox') every
objective evaluation invokes the callback once, with the running
evaluation count `1, 2, …` — but on the `least_squares` path the solver
is handed `_objective_function`, which never invokes the callback, so
for 'lm', 'trf' and 'dogbox' no invocation ever happens; none happens
either when no callback is set. -/
theorem progress_callback_contract (s : Scene) (cfg : OptimizerConfig)
    (oracle : SolverOracle) (camera_params : CameraParameters)
    (locator_pairs : List LocatorPair) (method : Option String)
    (out : OptimizeOutput)
    (hrun : optimize s cfg oracle camera_params locator_pairs method = .ok out) :
    ((method.getD cfg.method = "lm" ∨ method.getD cfg.method = "trf" ∨
        method.getD cfg.method = "dogbox") → out.state.events = []) ∧
    (cfg.callback_set = false → out.state.events = []) ∧
    ((¬(method.getD cfg.method = "lm" ∨ method.getD cfg.method = "trf" ∨
        method.getD cfg.method = "dogbox")) → cfg.callback_set = true →
      out.state.events.length = oracle.trials.length + 1 ∧
      out.state.events.map Prod.fst = List.range' 1 (oracle.trials.length + 1)) := by
  simp only [optimize] at hrun
  split at hrun
  · simp at hrun
  split at hrun
  · simp at hrun
  split at hrun
  · simp at hrun
  split at hrun
  · simp at hrun
  split at hrun
  · rename_i hm
    -- least_squares path
    split at hrun
    · simp at hrun
    rename_i final_fun st1 hobj
    split at hrun
    · simp at hrun
    rename_i cp2 hsp
    obtain rfl := Except.ok.inj hrun
    obtain ⟨hev, -, -⟩ := run_objective_list_state s cfg (oracle.trials ++ [oracle.x])
      ([], ⟨camera_params, locator_pairs, 0, []⟩) (final_fun, st1) hobj
    have hev2 : st1.events = [] := hev
    exact ⟨fun _ => hev2, fun _ => hev2, fun hn _ => absurd hm hn⟩
  · rename_i hnm
    -- minimize path
    split at hrun
    · simp at hrun
    rename_i final_cost st1 hcost
    split at hrun
    · simp at hrun
    rename_i cp2 hsp
    obtain rfl := Except.ok.inj hrun
    refine ⟨fun hm => absurd hm hnm, ?_, ?_⟩
    · intro hcb
      obtain ⟨hev, -⟩ := run_cost_list_nocb s cfg hcb (oracle.trials ++ [oracle.x])
        (0, ⟨camera_params, locator_pairs, 0, []⟩) (final_cost, st1) hcost
      exact hev
    · intro hn hcb
      obtain ⟨hmap, hlen, -⟩ := run_cost_list_numbering s cfg hcb
        (oracle.trials ++ [oracle.x])
        (0, ⟨camera_params, locator_pairs, 0, []⟩) (final_cost, st1) hcost
        (by simp) (by simp)
      have hlen2 : st1.events.length = oracle.trials.length + 1 := by
        have hb : st1.events.length = 0 + (oracle.trials ++ [oracle.x]).length := hlen
        simp only [List.length_append, List.length_cons, List.length_nil,
          Nat.zero_add] at hb
        omega
      have hmap2 : st1.events.map Prod.fst = List.range' 1 st1.events.length := hmap
      exact ⟨hlen2, by rw [hmap2, hlen2]⟩

/-- Counterexample for C2 as stated: a 'lm' run with a progress callback
set completes successfully, yet the recorded callback invocations are
empty — `least_squares` drives `_objective_function`, which never calls
the callback. -/
theorem progress_callback_lm_counterexample :
    cfgCB.callback_set = true ∧
    Except.map (fun o => o.state.events)
      (optimize sceneFront cfgCB oracleFail cpDefault pairs3 (some "lm")) =
      .ok ([] : List (Nat × ℚ)) := by
  refine ⟨rfl, ?_⟩
  norm_num [optimize, run_objective_list, objective_function, residuals_for_pairs,
    set_parameter_vector, get_unlocked_parameter_names, param_names,
    is_parameter_locked, defaultConstraints, set_parameter_value, clamp_value,
    get_parameter_vector, get_parameter_value, get_projected_coords,
    world_position, is_valid, camera_space_point, mpoint_mul_mat, mat4_inverse,
    sceneFront, sceneBack, sceneGone, cpDefault, pairs3, lpA, lpB, lpC, vec0,
    cfgCB, oracleFail, identity4, mget, List.getD, zEps, inchToMM, sum_squares,
    max_def, min_def, Bind.bind, Except.bind, Except.map, Pure.pure, Except.pure,
    List.foldlM_cons, List.foldlM_nil]

/-- Witness for C2 (amended): on a minimize-path method a successful
run with a callback set records exactly one invocation per evaluation,
numbered from 1. -/
theorem progress_callback_contract_witness :
    ∃ out, optimize sceneFront cfgCB oracleOK cpDefault pairs3
        (some "L-BFGS-B") = .ok out ∧
      out.state.events.length = oracleOK.trials.length + 1 ∧
      out.state.events.map Prod.fst = List.range' 1 (oracleOK.trials.length + 1) := by
  have hok : (optimize sceneFront cfgCB oracleOK cpDefault pairs3
      (some "L-BFGS-B")).isOk = true := by
    norm_num [optimize, run_cost_list, cost_function, objective_function,
      residuals_for_pairs, set_parameter_vector, get_unlocked_parameter_names,
      param_names, is_parameter_locked, defaultConstraints, set_parameter_value,
      clamp_value, get_parameter_vector, get_parameter_value,
      get_projected_coords, world_position, is_valid, camera_space_point,
      mpoint_mul_mat, mat4_inverse, sceneFront, sceneBack, sceneGone, cpDefault,
      pairs3, lpA, lpB, lpC, vec0, cfgCB, oracleOK, identity4, mget, List.getD,
      zEps, inchToMM, sum_squares, max_def, min_def, Bind.bind, Except.bind,
      Pure.pure, Except.pure, List.foldlM_cons, List.foldlM_nil, Except.isOk,
      Except.toBool]
    rw [if_neg (by decide)]
  rcases hoa : optimize sceneFront cfgCB oracleOK cpDefault pairs3
      (some "L-BFGS-B") with e | out
  · rw [hoa] at hok
    simp [Except.isOk, Except.toBool] at hok
  · have h3 := (progress_callback_contract sceneFront cfgCB oracleOK cpDefault
      pairs3 (some "L-BFGS-B") out hoa).2.2 (by decide) rfl
    exact ⟨out, rfl, h3.1, h3.2⟩

/-! ## The write-back of the final vector (C7) -/

/-- The unlocked-name list depends only on the constraint table. -/
theorem unlocked_names_congr (cp1 cp2 : CameraParameters)
    (h : cp1.constraints = cp2.constraints) :
    get_unlocked_parameter_names cp1 = get_unlocked_parameter_names cp2 := by
  unfold get_unlocked_parameter_names is_parameter_locked
  rw [h]

/-- After the canonical fold of clamped writes, the parameter vector is
exactly the value list clamped entry-wise through the pre-existing
constraints. -/
theorem get_parameter_vector_after_fold (cp : CameraParameters)
    (values : List ℚ) (h : values.length = (get_unlocked_parameter_names cp).length) :
    get_parameter_vector
        (((get_unlocked_parameter_names cp).zip values).foldl writeStep cp) =
      ((get_unlocked_parameter_names cp).zip values).map
        (fun nv => clamp_value (cp.constraints nv.1) nv.2) := by
  have hcon2 : (((get_unlocked_parameter_names cp).zip values).foldl
      writeStep cp).constraints = cp.constraints :=
    foldl_writeStep_constraints _ cp
  have hL : get_unlocked_parameter_names
      (((get_unlocked_parameter_names cp).zip values).foldl writeStep cp) =
      get_unlocked_parameter_names cp :=
    unlocked_names_congr _ _ hcon2
  unfold get_parameter_vector
  rw [hL]
  refine List.ext_getElem ?_ ?_
  · simp [h]
  · intro i h1 h2
    have hi : i < (get_unlocked_parameter_names cp).length := by simpa using h1
    have hv : i < values.length := by rw [h]; exact hi
    have hidx := foldl_writeStep_get_indexed (get_unlocked_parameter_names cp)
      values cp (unlocked_names_nodup cp) i hi hv
    simp only [List.get_eq_getElem] at hidx
    simp only [List.getElem_map, List.getElem_zip]
    exact hidx

/-- Inverting a successful `optimize` run: whatever the solver path, the
returned parameter set is the `set_parameter_vector` write-back of the
solver's final vector into the state the evaluations left, whose
constraint table is still the original one. -/
theorem optimize_ok_writeback (s : Scene) (cfg : OptimizerConfig)
    (oracle : SolverOracle) (camera_params : CameraParameters)
    (locator_pairs : List LocatorPair) (method : Option String)
    (out : OptimizeOutput)
    (hrun : optimize s cfg oracle camera_params locator_pairs method = .ok out) :
    ∃ cpMid, set_parameter_vector cpMid oracle.x = .ok out.state.camera_params ∧
      cpMid.constraints = camera_params.constraints := by
  simp only [optimize] at hrun
  split at hrun
  · simp at hrun
  split at hrun
  · simp at hrun
  split at hrun
  · simp at hrun
  split at hrun
  · simp at hrun
  split at hrun
  · split at hrun
    · simp at hrun
    rename_i final_fun st1 hobj
    split at hrun
    · simp at hrun
    rename_i cp2 hsp
    obtain rfl := Except.ok.inj hrun
    refine ⟨st1.camera_params, hsp, ?_⟩
    obtain ⟨-, -, hk⟩ := run_objective_list_state s cfg (oracle.trials ++ [oracle.x])
      ([], ⟨camera_params, locator_pairs, 0, []⟩) (final_fun, st1) hobj
    exact hk
  · split at hrun
    · simp at hrun
    rename_i final_cost st1 hcost
    split at hrun
    · simp at hrun
    rename_i cp2 hsp
    obtain rfl := Except.ok.inj hrun
    refine ⟨st1.camera_params, hsp, ?_⟩
    by_cases hcb : cfg.callback_set = true
    · obtain ⟨-, -, hk⟩ := run_cost_list_numbering s cfg hcb
        (oracle.trials ++ [oracle.x])
        (0, ⟨camera_params, locator_pairs, 0, []⟩) (final_cost, st1) hcost
        (by simp) (by simp)
      exact hk
    · have hcb2 : cfg.callback_set = false := by simpa using hcb
      obtain ⟨-, hk⟩ := run_cost_list_nocb s cfg hcb2 (oracle.trials ++ [oracle.x])
        (0, ⟨camera_params, locator_pairs, 0, []⟩) (final_cost, st1) hcost
      exact hk

/-- C7: a completed run that reports `converged = false` still leaves the
parameter set at the solver's final vector, written back through
`set_parameter_vector` (each unlocked parameter holds its clamped entry
of `result.x`); there is no rollback to the pre-optimization values. -/
theorem optimize_no_rollback (s : Scene) (cfg : OptimizerConfig)
    (oracle : SolverOracle) (camera_params : CameraParameters)
    (locator_pairs : List LocatorPair) (method : Option String)
    (out : OptimizeOutput)
    (hrun : optimize s cfg oracle camera_params locator_pairs method = .ok out)
    (_hfail : out.success = false) :
    ∃ cpMid,
      set_parameter_vector cpMid oracle.x = .ok out.state.camera_params ∧
      cpMid.constraints = camera_params.constraints ∧
      get_parameter_vector out.state.camera_params =
        ((get_unlocked_parameter_names camera_params).zip oracle.x).map
          (fun nv => clamp_value (camera_params.constraints nv.1) nv.2) := by
  obtain ⟨cpMid, hw, hcon⟩ := optimize_ok_writeback s cfg oracle camera_params
    locator_pairs method out hrun
  obtain ⟨hlen, hfold⟩ := set_parameter_vector_ok cpMid oracle.x
    out.state.camera_params hw
  have hL : get_unlocked_parameter_names cpMid =
      get_unlocked_parameter_names camera_params :=
    unlocked_names_congr cpMid camera_params hcon
  refine ⟨cpMid, hw, hcon, ?_⟩
  rw [hfold, get_parameter_vector_after_fold cpMid oracle.x (by rw [hL] at hlen; rw [hL]; exact hlen)]
  rw [hL, hcon]

/-- Witness for C7: a 'lm' run whose solver reports non-success; the
returned parameter set still carries the written-back final vector. -/
theorem optimize_no_rollback_witness :
    ∃ out, optimize sceneFront cfgCB oracleFail cpDefault pairs3
        (some "lm") = .ok out ∧
      out.success = false ∧
      ∃ cpMid,
        set_parameter_vector cpMid oracleFail.x = .ok out.state.camera_params ∧
        cpMid.constraints = cpDefault.constraints ∧
        get_parameter_vector out.state.camera_params =
          ((get_unlocked_parameter_names cpDefault).zip oracleFail.x).map
            (fun nv => clamp_value (cpDefault.constraints nv.1) nv.2) := by
  have hsucc : Except.map (fun o => o.success)
      (optimize sceneFront cfgCB oracleFail cpDefault pairs3 (some "lm")) =
      .ok false := by
    norm_num [optimize, run_objective_list, objective_function,
      residuals_for_pairs, set_parameter_vector, get_unlocked_parameter_names,
      param_names, is_parameter_locked, defaultConstraints, set_parameter_value,
      clamp_value, get_parameter_vector, get_parameter_value,
      get_projected_coords, world_position, is_valid, camera_space_point,
      mpoint_mul_mat, mat4_inverse, sceneFront, sceneBack, sceneGone, cpDefault,
      pairs3, lpA, lpB, lpC, vec0, cfgCB, oracleFail, identity4, mget,
      List.getD, zEps, inchToMM, sum_squares, max_def, min_def, Bind.bind,
      Except.bind, Except.map, Pure.pure, Except.pure, List.foldlM_cons,
      List.foldlM_nil]
  rcases hoa : optimize sceneFront cfgCB oracleFail cpDefault pairs3
      (some "lm") with e | out
  · rw [hoa] at hsucc
    simp [Except.map] at hsucc
  · have hf : out.success = false := by
      rw [hoa] at hsucc
      simpa [Except.map] using hsucc
    exact ⟨out, rfl, hf, optimize_no_rollback sceneFront cfgCB oracleFail
      cpDefault pairs3 (some "lm") out hoa hf⟩

/-! ## Applying results to the external camera (C10) -/

/-- C10: after `optimize_camera`, the external scene is written through
`apply_to_maya` exactly when the optimizer reported success; on a
non-success result the scene comes back untouched even though the
in-memory parameter set already carries the solver's final vector. -/
theorem optimize_camera_applies_only_on_success (s : Scene)
    (cfg : OptimizerConfig) (oracle : SolverOracle)
    (camera_params : CameraParameters) (locator_pairs : List LocatorPair)
    (method : Option String) (out : MatchOutput)
    (hrun : optimize_camera s cfg oracle camera_params locator_pairs method =
      .ok out) :
    (out.success = false → out.scene = s ∧
      ∃ cpMid, set_parameter_vector cpMid oracle.x = .ok out.state.camera_params ∧
        cpMid.constraints = camera_params.constraints) ∧
    (out.success = true →
      apply_to_maya out.state.camera_params s = .ok out.scene) := by
  simp only [optimize_camera] at hrun
  split at hrun
  · simp at hrun
  split at hrun
  · simp at hrun
  · simp at hrun
  rename_i out0 hopt
  split at hrun
  · rename_i hs
    split at hrun
    · simp at hrun
    rename_i s2 happ
    obtain rfl := Except.ok.inj hrun
    constructor
    · intro hfalse
      have hbad : out0.success = false := hfalse
      rw [hs] at hbad
      simp at hbad
    · intro _
      exact happ
  · rename_i hns
    obtain rfl := Except.ok.inj hrun
    constructor
    · intro _
      exact ⟨rfl, optimize_ok_writeback s cfg oracle camera_params
        locator_pairs method out0 hopt⟩
    · intro htrue
      exact absurd htrue hns

/-- Witness for C10: a non-success 'lm' run through `optimize_camera`
leaves the scene identical while the in-memory parameter set holds the
written-back final vector. -/
theorem optimize_camera_applies_only_on_success_witness :
    ∃ out, optimize_camera sceneFront cfgCB oracleFail cpDefault pairs3
        (some "lm") = .ok out ∧
      out.success = false ∧ out.scene = sceneFront ∧
      ∃ cpMid, set_parameter_vector cpMid oracleFail.x =
          .ok out.state.camera_params ∧
        cpMid.constraints = cpDefault.constraints := by
  have hsucc : Except.map (fun o => o.success)
      (optimize_camera sceneFront cfgCB oracleFail cpDefault pairs3
        (some "lm")) = .ok false := by
    norm_num [optimize_camera, validate_setup, optimize, run_objective_list,
      objective_function, residuals_for_pairs, set_parameter_vector,
      get_unlocked_parameter_names, param_names, is_parameter_locked,
      defaultConstraints, set_parameter_value, clamp_value,
      get_parameter_vector, get_parameter_value, get_projected_coords,
      world_position, is_valid, camera_space_point, mpoint_mul_mat,
      mat4_inverse, sceneFront, sceneBack, sceneGone, cpDefault, pairs3, lpA,
      lpB, lpC, vec0, cfgCB, oracleFail, identity4, mget, List.getD, zEps,
      inchToMM, sum_squares, max_def, min_def, Bind.bind, Except.bind,
      Except.map, Pure.pure, Except.pure, List.foldlM_cons, List.foldlM_nil]
  rcases hoa : optimize_camera sceneFront cfgCB oracleFail cpDefault pairs3
      (some "lm") with e | out
  · rw [hoa] at hsucc
    simp [Except.map] at hsucc
  · have hf : out.success = false := by
      rw [hoa] at hsucc
      simpa [Except.map] using hsucc
    obtain ⟨hscene, hmid⟩ := (optimize_camera_applies_only_on_success sceneFront
      cfgCB oracleFail cpDefault pairs3 (some "lm") out hoa).1 hf
    exact ⟨out, rfl, hf, hscene, hmid⟩

end CameraMatcher
